import Mathlib

/-!
Verification development for the mongomancy resilience layer
(`src/mongomancy/engine.py`, `src/mongomancy/schema.py`, `src/mongomancy/types.py`).

The Python code is shallowly embedded: every pymongo interaction is modelled by
explicit outcome traces (what the remote server / client constructor does on the
i-th call), and the control flow of each Python function is translated
statement by statement.  Python `float` delays are modelled by `ℚ`; they never
influence control flow.
-/

namespace Mongomancy

/-! ## Error taxonomy

`Engine.CONNECTION_ERRORS = (AutoReconnect, ConnectionFailure, IOError)`.
`AutoReconnect`, `ConnectionFailure`, `WriteError` and all the rest of the
pymongo hierarchy derive from `PyMongoError`; `IOError` does not. -/

inductive MongoError where
  /-- `pymongo.errors.AutoReconnect` / `ConnectionFailure` (connection class, PyMongoError). -/
  | connectivity : Nat → MongoError
  /-- Python `IOError` (member of `CONNECTION_ERRORS`, *not* a `PyMongoError`). -/
  | ioError : Nat → MongoError
  /-- `pymongo.errors.WriteError` carrying a numeric code. -/
  | writeError : Int → Nat → MongoError
  /-- any other `pymongo.errors.PyMongoError`. -/
  | otherPyMongo : Nat → MongoError
deriving DecidableEq, Repr

/-- Would the Python exception be caught by `except PyMongoError`? -/
def isPyMongoError : MongoError → Bool
  | .ioError _ => false
  | _ => true

instance {ε α : Type} [DecidableEq ε] [DecidableEq α] : DecidableEq (Except ε α) :=
  fun x y =>
  match x, y with
  | .ok a, .ok b => decidable_of_iff (a = b) (by simp)
  | .error a, .error b => decidable_of_iff (a = b) (by simp)
  | .ok _, .error _ => isFalse (by simp)
  | .error _, .ok _ => isFalse (by simp)

/-! ## `Engine._retry_command` (engine.py lines 263-319)

One executor operation.  The i-th entry of the trace `outcomes` is what the
remote command invocation raises or returns on the i-th attempt (attempts are
1-indexed, as the Python `attempt` counter is incremented before the call).
`reconnect()` calls performed by the loop are modelled as succeeding; the
claims settled over this model quantify over transient failures that are
followed by a success. -/

inductive AttemptOutcome (α : Type) where
  /-- the command returns a value (Python may also return `None`; the loop
      variable `result` is an `Option α` below). -/
  | ok : α → AttemptOutcome α
  /-- the command raises one of `CONNECTION_ERRORS`. -/
  | connFail : Nat → AttemptOutcome α
  /-- the command raises `pymongo.errors.WriteError` with the given code. -/
  | writeFail : Int → Nat → AttemptOutcome α
  /-- the command raises any other error: not caught by the loop. -/
  | otherFail : Nat → AttemptOutcome α
deriving DecidableEq, Repr

/-- Python's `_error` variable ranges over `False` (initial), `None` (success)
and a caught exception. -/
inductive ErrState where
  | initial : ErrState
  | cleared : ErrState
  | failed : MongoError → ErrState
deriving DecidableEq, Repr

/-- Truthiness of `_error is not None` (`False` is not `None`). -/
def errIsNotNone : ErrState → Bool
  | .cleared => false
  | _ => true

/-- Result of one `_retry_command` run: what is returned or raised plus how
many command attempts, `reconnect()` calls and `time.sleep` calls happened. -/
structure RetryRun (α : Type) where
  result : Except MongoError (Option α)
  attempts : Nat
  reconnects : Nat
  sleeps : Nat
deriving Repr

/-- Code run after the `while` loop: `if _error: raise _error` else return
`result` (the success branch also skips the re-resolution line). -/
def retryExit {α : Type} (attempt r s : Nat) (err : ErrState) (result : Option α) :
    RetryRun α :=
  match err with
  | .failed e => ⟨.error e, attempt, r, s⟩
  | _ => ⟨.ok result, attempt, r, s⟩

/-- The `while attempt <= self.write_retry and _error is not None` loop.

`fuel` is the standard embedding of the `while` loop; the body strictly
increments `attempt`, so starting from `attempt = 0` with `fuel = W + 1` the
fuel can only run out once `attempt = W + 1`, where the loop condition is
false anyway and both exits agree. -/
def retryGo {α : Type} (retryable : Int → Bool) (outcomes : Nat → AttemptOutcome α)
    (W : Nat) : Nat → Nat → Nat → Nat → ErrState → Option α → RetryRun α
  | 0, attempt, r, s, err, result => retryExit attempt r s err result
  | fuel + 1, attempt, r, s, err, result =>
    if attempt ≤ W ∧ errIsNotNone err = true then
      match outcomes (attempt + 1) with
      | .ok v =>
          -- `result = command_fn(...); _error = None`
          retryGo retryable outcomes W fuel (attempt + 1) r s .cleared (some v)
      | .connFail eid =>
          -- `except self.CONNECTION_ERRORS`: log, sleep, reconnect, re-resolve
          retryGo retryable outcomes W fuel (attempt + 1) (r + 1) (s + 1)
            (.failed (.connectivity eid)) result
      | .writeFail code eid =>
          if retryable code then
            -- retryable write conflict: log, sleep, reconnect, re-resolve
            retryGo retryable outcomes W fuel (attempt + 1) (r + 1) (s + 1)
              (.failed (.writeError code eid)) result
          else
            -- `if e.code not in self.retry_codes: raise e from e`
            ⟨.error (.writeError code eid), attempt + 1, r, s⟩
      | .otherFail eid =>
          -- any other exception is not caught by the loop and propagates
          ⟨.error (.otherPyMongo eid), attempt + 1, r, s⟩
    else retryExit attempt r s err result

/-- `Engine._retry_command`: the leading `if self.disposed: sleep; reconnect()`
step, then the retry loop started with `attempt = 0` and `_error = False`. -/
def retry_command {α : Type} (retryable : Int → Bool)
    (outcomes : Nat → AttemptOutcome α) (write_retry : Nat) (disposed : Bool) :
    RetryRun α :=
  let preR : Nat := if disposed then 1 else 0
  let preS : Nat := if disposed then 1 else 0
  retryGo retryable outcomes write_retry (write_retry + 1) 0 preR preS .initial none

/-! ## `Engine.ping` (engine.py lines 216-242)

Per loop iteration `i` (1-indexed) the environment fixes:
the outcome of the `self.reconnect()` in the `if self.disposed:` branch,
the outcome of `self.client[database].command("ping")`, and
the outcome of the unguarded `self.reconnect()` in the connection-error
handler. -/

inductive PingStep where
  /-- the command returns; the `Bool` is the truthiness of `.get("ok")`. -/
  | ok : Bool → PingStep
  /-- the command raises one of `CONNECTION_ERRORS`. -/
  | connErr : Nat → PingStep
  /-- the command raises another `PyMongoError` (logged and swallowed). -/
  | otherErr : Nat → PingStep
deriving DecidableEq, Repr

structure PingEnv where
  dispReconnect : Nat → Except MongoError Unit
  step : Nat → PingStep
  connReconnect : Nat → Except MongoError Unit

structure PingRun where
  result : Except MongoError Bool
  attempts : Nat
  reconnects : Nat
deriving DecidableEq, Repr

/-- `if self.disposed: try: self.reconnect() except PyMongoError: is_ok = False`.
Returns the propagated error, or the disposed flag plus successful-reconnect
count after the statement (`is_ok` is already `False` whenever the loop body
runs, so the assignment in the handler changes nothing). -/
def pingDisposedStep (env : PingEnv) (i : Nat) (disposed : Bool) (r : Nat) :
    Except MongoError (Bool × Nat) :=
  if disposed then
    match env.dispReconnect i with
    | .ok _ => .ok (false, r + 1)
    | .error e => if isPyMongoError e then .ok (true, r) else .error e
  else .ok (disposed, r)

/-- The `while not is_ok and retry > 0:` loop; `retry` is decremented at the
top of each iteration, so it is the structural recursion argument. -/
def pingGo (env : PingEnv) : Nat → Nat → Bool → Bool → Nat → Nat → PingRun
  | 0, _, _, isOk, a, r => ⟨.ok isOk, a, r⟩
  | retry + 1, iter, disposed, isOk, a, r =>
    if isOk then ⟨.ok isOk, a, r⟩
    else
      match pingDisposedStep env (iter + 1) disposed r with
      | .error e => ⟨.error e, a, r⟩
      | .ok (d1, r1) =>
        match env.step (iter + 1) with
        | .ok v =>
            -- `is_ok = self.client[database].command("ping").get("ok")`
            pingGo env retry (iter + 1) d1 v (a + 1) r1
        | .connErr _ =>
            -- `except self.CONNECTION_ERRORS`: log, sleep, `self.reconnect()`
            -- — the reconnect is NOT wrapped in try/except
            match env.connReconnect (iter + 1) with
            | .ok _ => pingGo env retry (iter + 1) false isOk (a + 1) (r1 + 1)
            | .error e => ⟨.error e, a + 1, r1⟩
        | .otherErr _ =>
            -- `except PyMongoError`: log and continue
            pingGo env retry (iter + 1) d1 isOk (a + 1) r1

/-- `Engine.ping`: `retry = max(1, self.read_retry)`, `is_ok = False`, then the
loop; finally `return bool(is_ok)`. -/
def ping (env : PingEnv) (read_retry : Nat) (disposed : Bool) : PingRun :=
  pingGo env (max 1 read_retry) 0 disposed false 0 0

/-- `database = database or "admin"` (Python `or`: `None` and `""` are falsy). -/
def pingDatabase (database : Option String) : String :=
  match database with
  | none => "admin"
  | some s => if s = "" then "admin" else s

/-! ## `Engine.__init__` retry settings (engine.py lines 126-131)

`self.write_retry = max(0, write_retry or 0)` and friends.  Delay values are
Python floats, modelled by `ℚ`. -/

/-- Python `x or 0` for an optional integer (`None` and `0` are falsy). -/
def pyOrZeroInt (x : Option Int) : Int :=
  match x with
  | none => 0
  | some v => if v = 0 then 0 else v

/-- Python `x or 0` for an optional float. -/
def pyOrZeroRat (x : Option ℚ) : ℚ :=
  match x with
  | none => 0
  | some v => if v = 0 then 0 else v

structure RetrySettings where
  write_retry : Int
  write_retry_delay : ℚ
  read_retry : Int
  read_retry_delay : ℚ
deriving DecidableEq, Repr

/-- The four assignments of `Engine.__init__` that store the retry settings. -/
def engineInitRetrySettings (write_retry : Option Int) (write_retry_delay : Option ℚ)
    (read_retry : Option Int) (read_retry_delay : Option ℚ) : RetrySettings :=
  { write_retry := max 0 (pyOrZeroInt write_retry)
  , write_retry_delay := max 0 (pyOrZeroRat write_retry_delay)
  , read_retry := max 0 (pyOrZeroInt read_retry)
  , read_retry_delay := max 0 (pyOrZeroRat read_retry_delay) }

/-! ## `Engine._reconnect` and `Database.invalidate_cache_hook`
(engine.py lines 249-261, schema.py lines 230-240)

A pymongo client is identified by a generation number: `_new_client()` yields
a fresh client, so `_reconnect` bumps the generation.  A remote collection
reference records the client generation it was obtained from plus its
database and collection names. -/

structure PyCollRef where
  clientGen : Nat
  dbName : String
  collName : String
deriving DecidableEq, Repr

/-- The schema-level cache of one `Database`: the pymongo database reference
`self._database` (its client generation and name) and the cached `Collection`
handles `self._collections` (insertion-ordered dict: name ↦ the handle's
`mongo_collection` reference). -/
structure DatabaseState where
  databaseGen : Nat
  databaseName : String
  collections : List (String × PyCollRef)
deriving DecidableEq, Repr

/-- `Database.invalidate_cache_hook(source)`:
`self._database = source.get_database(self.name)` followed by
`collection.mongo_collection = self._database[collection.name]` for every
cached handle (`collection.name` reads the old reference's name; the handles
are mutated in place, so the dict keys are unchanged). -/
def invalidate_cache_hook (sourceGen : Nat) (db : DatabaseState) : DatabaseState :=
  { databaseGen := sourceGen
  , databaseName := db.databaseName
  , collections :=
      db.collections.map fun kv => (kv.1, ⟨sourceGen, db.databaseName, kv.2.collName⟩) }

structure EngineState where
  clientGen : Nat
  disposed : Bool
deriving DecidableEq, Repr

/-- `Engine._reconnect` (success path): `self.client = self._new_client()`
(a fresh client), `self.disposed = False`, then every registered hook is
invoked in registration order with the engine as argument. -/
def engine_reconnect (e : EngineState)
    (hooks : List (Nat → DatabaseState → DatabaseState)) (db : DatabaseState) :
    EngineState × DatabaseState :=
  let newGen := e.clientGen + 1
  ({ clientGen := newGen, disposed := false },
   hooks.foldl (fun s h => h newGen s) db)

/-! ## Which remote collection an executor operation runs against
(schema.py lines 64-78 and engine.py line 290)

`Engine._retry_command` executes `getattr(collection.dialect_entity, command)`.
`schema.Collection.find_one` (and every other data operation of the handle)
passes `self.mongo_collection`, a raw `pymongo.collection.Collection`.  That
class defines no attribute `dialect_entity`, so Python falls back to
`pymongo.collection.Collection.__getattr__`, which for any attribute name not
starting with an underscore returns the SUB-collection
`database["<name>.<attr>"]` of the same database. -/

structure CollAddr where
  db : String
  coll : String
deriving DecidableEq, Repr

/-- `pymongo.collection.Collection.__getattr__(attr)` for a non-underscore
`attr`: the sub-collection named `"<name>.<attr>"`. -/
def pycollGetattr (c : CollAddr) (attr : String) : CollAddr :=
  ⟨c.db, c.coll ++ "." ++ attr⟩

/-- The collection object whose method `_retry_command` actually invokes when
it is passed the raw pymongo collection `passed`. -/
def retryCommandEntity (passed : CollAddr) : CollAddr :=
  pycollGetattr passed "dialect_entity"

/-- Target of a data operation issued through a `schema.Collection` handle:
the handle passes `self.mongo_collection` to the engine, the engine resolves
`collection.dialect_entity`. -/
def handleOpTarget (mongo_collection : CollAddr) : CollAddr :=
  retryCommandEntity mongo_collection

/-! ## The bootstrap lock protocol (schema.py lines 262-312)

Only the lock documents matter here: a `LockStore` maps a collection address
to the optional value of the `locked` field of its `{_id: "master"}` document
(`none` = the lock collection/document does not exist).  Collection creation
in step 3 of `create_all` never writes lock documents. -/

def LOCK_COLLECTION : String := "mongomancy_lock"

def LockStore : Type := CollAddr → Option Bool

def setLocked (st : LockStore) (addr : CollAddr) (v : Bool) : LockStore :=
  fun r => if r = addr then some v else st r

/-- `pymongo.MongoClient.__getattr__(attr)`: attribute access on a client
returns the DATABASE named after the attribute. -/
def clientGetattrDatabase (attr : String) : String := attr

/-- `Database._lock` operates on `self._database[self.LOCK_COLLECTION]`:
the lock collection of the target database. -/
def lockTarget (dbName : String) : CollAddr := ⟨dbName, LOCK_COLLECTION⟩

/-- `Database._unlock` operates on
`self._database.client.c[self.LOCK_COLLECTION]`:
`self._database.client` is the `MongoClient`, `.c` is client attribute access
(the database named `"c"`), so the write goes to the lock collection of the
database named `"c"` — whatever the target database is. -/
def unlockTarget (_dbName : String) : CollAddr :=
  ⟨clientGetattrDatabase "c", LOCK_COLLECTION⟩

/-- `self.create_collection(define_lock_collection(self.LOCK_COLLECTION))`:
when the lock collection of the target database does not exist yet it is
created and seeded with the default document `{_id: "master", locked: False}`;
an existing collection is skipped (`skip_existing` defaults to `True`). -/
def lockSeed (st : LockStore) (dbName : String) : LockStore :=
  match st (lockTarget dbName) with
  | some _ => st
  | none => setLocked st (lockTarget dbName) false

/-- `find_one_and_update(where={"_id": "master", "locked": False},
changes={"$set": {"locked": True}})` on `target`: if the document matches,
set `locked` and return the PRE-update document's `locked` value, else return
`None` and change nothing. -/
def lockFindOneAndUpdate (st : LockStore) (target : CollAddr) :
    Option Bool × LockStore :=
  match st target with
  | some false => (some false, setLocked st target true)
  | _ => (none, st)

/-- `Database._lock`: seed, then try the atomic test-and-set; returns
`not bool(doc.get("locked"))` when a document was matched, `False` otherwise. -/
def database_lock (st : LockStore) (dbName : String) : Bool × LockStore :=
  let st1 := lockSeed st dbName
  match lockFindOneAndUpdate st1 (lockTarget dbName) with
  | (some lockedBefore, st2) => (!lockedBefore, st2)
  | (none, st2) => (false, st2)

/-- `Database._unlock`: `find_one_and_update(self._database.client.c[...],
where={"_id": "master"}, changes={"$set": {"locked": False}}, upsert=True)` —
an unconditional upsert of `locked: False` at `unlockTarget`. -/
def database_unlock (st : LockStore) (dbName : String) : LockStore :=
  setLocked st (unlockTarget dbName) false

/-- `Database.create_all` restricted to its effect on the lock documents.
The wait loop is collapsed: the store is the only state, a failed `_lock`
leaves it unchanged, so when the first acquisition fails every later retry
fails too and the loop ends through the `wait_time > max_wait` timeout branch
(`self._unlock(); break`).  `bodyRaises` says whether the per-collection
creation loop of step 3 raises; either way the code calls `self._unlock()`
(in the `except` handler before re-raising, or after the loop).  Returns
(raised?, final store). -/
def create_all (st : LockStore) (dbName : String) (bodyRaises : Bool) :
    Bool × LockStore :=
  let acq := database_lock st dbName
  let st2 := if acq.1 then acq.2 else database_unlock acq.2 dbName
  if bodyRaises then (true, database_unlock st2 dbName)
  else (false, database_unlock st2 dbName)

/-- The store of a freshly created deployment: no lock document anywhere. -/
def freshStore : LockStore := fun _ => none

/-! ## `SemaphoreTower.__enter__` (types.py lines 94-101)

`threading.Semaphore.acquire(timeout=t)` and
`multiprocessing.Semaphore.acquire(timeout=t)` return `True` on success and
`False` once the timeout elapses; they never raise.  With `timeout=None` an
unavailable semaphore blocks forever.  `__enter__` calls the two acquires in
order and DISCARDS both return values. -/

structure SemaphoreState where
  value : Nat
deriving DecidableEq, Repr

inductive AcquireResult where
  /-- returns `True`; the semaphore value is decremented. -/
  | acquired : SemaphoreState → AcquireResult
  /-- returns `False` after waiting for the timeout. -/
  | timedOut : AcquireResult
  /-- `timeout=None` and the semaphore is unavailable: never returns. -/
  | blocks : AcquireResult
deriving DecidableEq, Repr

def semAcquire (s : SemaphoreState) (timeout : Option ℚ) : AcquireResult :=
  if 0 < s.value then .acquired ⟨s.value - 1⟩
  else
    match timeout with
    | some _ => .timedOut
    | none => .blocks

structure SemaphoreTowerState where
  multiprocess : SemaphoreState
  thread : SemaphoreState
  timeout : Option ℚ
deriving DecidableEq, Repr

inductive TowerEnterResult where
  /-- `__enter__` never returns. -/
  | blocks : TowerEnterResult
  /-- an exception propagates out of `__enter__`. -/
  | raises : TowerEnterResult
  /-- `__enter__` returns `self`; the booleans record whether the
      multiprocess / thread semaphore is actually held. -/
  | enters : Bool → Bool → SemaphoreTowerState → TowerEnterResult
deriving DecidableEq, Repr

/-- `SemaphoreTower.__enter__`: `self.multiprocess.acquire(timeout=self.timeout)`
then `self.thread.acquire(timeout=self.timeout)`, both return values ignored,
then `return self`. -/
def towerEnter (t : SemaphoreTowerState) : TowerEnterResult :=
  match semAcquire t.multiprocess t.timeout with
  | .blocks => .blocks
  | .acquired mp1 =>
    match semAcquire t.thread t.timeout with
    | .blocks => .blocks
    | .acquired th1 => .enters true true ⟨mp1, th1, t.timeout⟩
    | .timedOut => .enters true false ⟨mp1, t.thread, t.timeout⟩
  | .timedOut =>
    match semAcquire t.thread t.timeout with
    | .blocks => .blocks
    | .acquired th1 => .enters false true ⟨t.multiprocess, th1, t.timeout⟩
    | .timedOut => .enters false false t

/-! ## `Database.create_collection` / `Database._create_mongo_collection`
(schema.py lines 314-371) -/

/-- What the remote `create_collection` command does when the collection was
absent from `list_collection_names` a moment before. -/
inductive CreateOutcome where
  /-- the collection is created. -/
  | created : CreateOutcome
  /-- `pymongo.errors.CollectionInvalid`: a peer created it first. -/
  | collectionInvalid : CreateOutcome
deriving DecidableEq, Repr

/-- `Database._create_mongo_collection`: returns `(collection name, is_new)`.
If the name is already listed, the existing collection is fetched with
`is_new = False`.  Otherwise `create_collection` is attempted; on
`CollectionInvalid` the handler sleeps 0.5s and re-fetches the existing
collection — and the function still returns `is_new = True`. -/
def create_mongo_collection (existing : List String) (createResult : CreateOutcome)
    (name : String) : String × Bool :=
  if name ∈ existing then (name, false)
  else
    match createResult with
    | .created => (name, true)
    | .collectionInvalid => (name, true)

/-- `Database.create_collection`: returns `(is_new, initialized)` where
`initialized` says whether `_create_indices` and `_insert_defaults` ran
(`if is_new or not skip_existing:`).  A name already cached in
`self._collections` is returned unchanged with no initialization. -/
def create_collection (cache : List String) (existing : List String)
    (createResult : CreateOutcome) (skip_existing : Bool) (name : String) :
    Bool × Bool :=
  if name ∈ cache then (false, false)
  else
    let created := create_mongo_collection existing createResult name
    (created.2, created.2 || !skip_existing)

/-! ## Concrete inputs used by witnesses and counterexamples -/

/-- Concrete trace for C3: two connectivity failures then success. -/
def outcomesC3 : Nat → AttemptOutcome Nat :=
  fun i => if i ≤ 2 then .connFail i else .ok 42

/-- Concrete trace for C5: attempt 1 raises `WriteError(code = -7)`. -/
def outcomesC5 : Nat → AttemptOutcome Nat :=
  fun i => if i = 1 then .writeFail (-7) 5 else .ok 0

/-- Environment whose attempts always raise a swallowed `PyMongoError`. -/
def envPingOk : PingEnv :=
  ⟨fun _ => .ok (), fun _ => .otherErr 3, fun _ => .ok ()⟩

/-- Environment for the C4 counterexample: the first attempt raises a
connectivity error and the unguarded `self.reconnect()` in that handler
raises as well. -/
def envPingReconnectRaises : PingEnv :=
  ⟨fun _ => .ok (), fun _ => .connErr 7, fun _ => .error (.connectivity 7)⟩

/-- Environment for the C10 counterexample: the engine is disposed and the
client constructor raises `IOError`, which the disposed-branch
`except PyMongoError` does not catch. -/
def envPingDisposedIo : PingEnv :=
  ⟨fun _ => .error (.ioError 9), fun _ => .ok true, fun _ => .ok ()⟩

/-- A concrete database cache with two handles on client generation 0. -/
def dbC6 : DatabaseState :=
  ⟨0, "gaming", [("game", ⟨0, "gaming", "game"⟩), ("player", ⟨0, "gaming", "player"⟩)]⟩

/-- A tower whose multiprocess layer is unavailable, with a finite timeout. -/
def towerUnavailable : SemaphoreTowerState := ⟨⟨0⟩, ⟨1⟩, some 5⟩

/-! ## Lemmas about the retry loop -/

theorem retryGo_cleared {α : Type} (retryable : Int → Bool)
    (outcomes : Nat → AttemptOutcome α) (W f a r s : Nat) (res : Option α) :
    retryGo retryable outcomes W f a r s .cleared res = ⟨.ok res, a, r, s⟩ := by
  cases f <;> simp [retryGo, retryExit, errIsNotNone]

theorem retryGo_exit_failed {α : Type} (retryable : Int → Bool)
    (outcomes : Nat → AttemptOutcome α) (W f a r s : Nat) (e : MongoError)
    (res : Option α) (h : ¬ a ≤ W) :
    retryGo retryable outcomes W f a r s (.failed e) res = ⟨.error e, a, r, s⟩ := by
  cases f <;> simp [retryGo, retryExit, h]

theorem retryGo_conn_step {α : Type} (retryable : Int → Bool)
    (outcomes : Nat → AttemptOutcome α) (W f a r s : Nat) (err : ErrState)
    (res : Option α) (eid : Nat) (h1 : a ≤ W) (h2 : errIsNotNone err = true)
    (h3 : outcomes (a + 1) = .connFail eid) :
    retryGo retryable outcomes W (f + 1) a r s err res
      = retryGo retryable outcomes W f (a + 1) (r + 1) (s + 1)
          (.failed (.connectivity eid)) res := by
  simp [retryGo, h1, h2, h3]

theorem retryGo_ok_step {α : Type} (retryable : Int → Bool)
    (outcomes : Nat → AttemptOutcome α) (W f a r s : Nat) (err : ErrState)
    (res : Option α) (v : α) (h1 : a ≤ W) (h2 : errIsNotNone err = true)
    (h3 : outcomes (a + 1) = .ok v) :
    retryGo retryable outcomes W (f + 1) a r s err res
      = ⟨.ok (some v), a + 1, r, s⟩ := by
  simp [retryGo, h1, h2, h3, retryGo_cleared]

theorem retryGo_permwrite_step {α : Type} (retryable : Int → Bool)
    (outcomes : Nat → AttemptOutcome α) (W f a r s : Nat) (err : ErrState)
    (res : Option α) (c : Int) (eid : Nat) (h1 : a ≤ W)
    (h2 : errIsNotNone err = true) (h3 : outcomes (a + 1) = .writeFail c eid)
    (h4 : retryable c = false) :
    retryGo retryable outcomes W (f + 1) a r s err res
      = ⟨.error (.writeError c eid), a + 1, r, s⟩ := by
  simp [retryGo, h1, h2, h3, h4]

/-- Running the loop over `j` consecutive connectivity failures advances
`attempt`, the reconnect count and the sleep count by `j`, leaving some
pending (non-`None`) error state. -/
theorem retryGo_connAdvance {α : Type} (retryable : Int → Bool)
    (outcomes : Nat → AttemptOutcome α) (W : Nat) (eids : Nat → Nat) :
    ∀ (j a f r s : Nat) (err : ErrState) (res : Option α),
    errIsNotNone err = true →
    a + f = W + 1 →
    a + j ≤ W →
    (∀ i, i ≤ a + j → a < i → outcomes i = .connFail (eids i)) →
    ∃ err', errIsNotNone err' = true ∧
      retryGo retryable outcomes W f a r s err res
        = retryGo retryable outcomes W (f - j) (a + j) (r + j) (s + j) err' res := by
  intro j
  induction j with
  | zero =>
    intro a f r s err res h1 _ _ _
    exact ⟨err, h1, by simp⟩
  | succ j ih =>
    intro a f r s err res h1 h2 h3 h4
    have haW : a ≤ W := by omega
    obtain ⟨f', rfl⟩ : ∃ f', f = f' + 1 := ⟨f - 1, by omega⟩
    have hout : outcomes (a + 1) = .connFail (eids (a + 1)) :=
      h4 (a + 1) (by omega) (by omega)
    obtain ⟨err', he, heq⟩ :=
      ih (a + 1) f' (r + 1) (s + 1) (.failed (.connectivity (eids (a + 1)))) res
        rfl (by omega) (by omega) (fun i hi hlt => h4 i (by omega) (by omega))
    refine ⟨err', he, ?_⟩
    rw [retryGo_conn_step retryable outcomes W f' a r s err res (eids (a + 1))
      haW h1 hout, heq]
    have e1 : f' + 1 - (j + 1) = f' - j := by omega
    have e2 : a + (j + 1) = a + 1 + j := by omega
    have e3 : r + (j + 1) = r + 1 + j := by omega
    have e4 : s + (j + 1) = s + 1 + j := by omega
    rw [e1, e2, e3, e4]

/-- C3: for an operation started on a non-disposed executor whose first `N`
attempts raise transient connectivity errors and whose attempt `N + 1`
succeeds with `v`: if `N ≤ write_retry` the run returns `v` after `N + 1`
attempts and exactly `N` reconnects; if `N > write_retry` the run raises the
final underlying error (the connectivity error of attempt `write_retry + 1`)
after exactly `write_retry + 1` attempts, with no further attempts. -/
theorem retry_command_transient_trace {α : Type} (W N : Nat) (v : α)
    (retryable : Int → Bool) (outcomes : Nat → AttemptOutcome α) (eids : Nat → Nat)
    (hfail : ∀ i, i ≤ N → 1 ≤ i → outcomes i = .connFail (eids i))
    (hok : outcomes (N + 1) = .ok v) :
    (N ≤ W → retry_command retryable outcomes W false
        = ⟨.ok (some v), N + 1, N, N⟩) ∧
    (W < N → retry_command retryable outcomes W false
        = ⟨.error (.connectivity (eids (W + 1))), W + 1, W + 1, W + 1⟩) := by
  have h0 : retry_command retryable outcomes W false
      = retryGo retryable outcomes W (W + 1) 0 0 0 .initial none := rfl
  constructor
  · intro hNW
    obtain ⟨err', he, heq⟩ :=
      retryGo_connAdvance retryable outcomes W eids N 0 (W + 1) 0 0 .initial none
        rfl (by omega) (by omega) (fun i hi hlt => hfail i (by omega) (by omega))
    have e1 : W + 1 - N = (W - N) + 1 := by omega
    rw [h0, heq, e1]
    simp only [Nat.zero_add]
    exact retryGo_ok_step retryable outcomes W (W - N) N N N err' none v hNW he hok
  · intro hWN
    obtain ⟨err', he, heq⟩ :=
      retryGo_connAdvance retryable outcomes W eids W 0 (W + 1) 0 0 .initial none
        rfl (by omega) (by omega)
        (fun i hi hlt => hfail i (by omega) (by omega))
    have e1 : W + 1 - W = 0 + 1 := by omega
    rw [h0, heq, e1]
    simp only [Nat.zero_add]
    rw [retryGo_conn_step retryable outcomes W 0 W W W err' none (eids (W + 1))
      (by omega) he (hfail (W + 1) (by omega) (by omega))]
    exact retryGo_exit_failed retryable outcomes W 0 (W + 1) (W + 1) (W + 1)
      (.connectivity (eids (W + 1))) none (by omega)

/-- Witness for C3: with `write_retry = 3` the run returns 42 after 2
reconnects; with `write_retry = 1` it raises the connectivity error of
attempt 2 after exactly 2 attempts. -/
theorem retry_command_transient_trace_witness :
    retry_command (fun c => c = 10107) outcomesC3 3 false
        = ⟨.ok (some 42), 3, 2, 2⟩ ∧
    retry_command (fun c => c = 10107) outcomesC3 1 false
        = ⟨.error (.connectivity 2), 2, 2, 2⟩ :=
  ⟨(retry_command_transient_trace 3 2 42 (fun c => c = 10107) outcomesC3
      (fun i => i) (by decide) (by decide)).1 (by decide),
   (retry_command_transient_trace 1 2 42 (fun c => c = 10107) outcomesC3
      (fun i => i) (by decide) (by decide)).2 (by decide)⟩

/-- C5: a write error whose code is not in the retryable set, first occurring
at attempt `j + 1` after `j` transient connectivity failures, is raised
immediately: the run ends with exactly `j + 1` attempts, `j` reconnects and
`j` sleeps — the non-retryable error adds no sleep, no reconnect and no
further attempt, however much retry budget (`j ≤ write_retry`) remains. -/
theorem retry_command_permanent_write {α : Type} (W j : Nat) (c : Int) (eid : Nat)
    (retryable : Int → Bool) (outcomes : Nat → AttemptOutcome α) (eids : Nat → Nat)
    (hperm : retryable c = false)
    (hfail : ∀ i, i ≤ j → 1 ≤ i → outcomes i = .connFail (eids i))
    (hw : outcomes (j + 1) = .writeFail c eid)
    (hj : j ≤ W) :
    retry_command retryable outcomes W false
      = ⟨.error (.writeError c eid), j + 1, j, j⟩ := by
  have h0 : retry_command retryable outcomes W false
      = retryGo retryable outcomes W (W + 1) 0 0 0 .initial none := rfl
  obtain ⟨err', he, heq⟩ :=
    retryGo_connAdvance retryable outcomes W eids j 0 (W + 1) 0 0 .initial none
      rfl (by omega) (by omega) (fun i hi hlt => hfail i (by omega) (by omega))
  have e1 : W + 1 - j = (W - j) + 1 := by omega
  rw [h0, heq, e1]
  simp only [Nat.zero_add]
  exact retryGo_permwrite_step retryable outcomes W (W - j) j j j err' none c eid
    hj he hw hperm

/-- Witness for C5: with a full budget of 3 retries remaining, the
non-retryable write error of the very first attempt is raised with no sleep,
no reconnect and no further attempt. -/
theorem retry_command_permanent_write_witness :
    retry_command (fun c => c = 10107) outcomesC5 3 false
      = ⟨.error (.writeError (-7) 5), 1, 0, 0⟩ :=
  retry_command_permanent_write 3 0 (-7) 5 (fun c => c = 10107) outcomesC5
    (fun i => i) (by decide) (by decide) (by decide) (by decide)

/-! ## Lemmas about `ping` -/

theorem pingDisposedStep_ok (env : PingEnv) (i : Nat) (d : Bool) (r : Nat)
    (hdisp : ∀ j e, env.dispReconnect j = .error e → isPyMongoError e = true) :
    ∃ p, pingDisposedStep env i d r = .ok p := by
  unfold pingDisposedStep
  cases d
  · exact ⟨_, rfl⟩
  · cases hdr : env.dispReconnect i with
    | ok u => exact ⟨_, rfl⟩
    | error e =>
      simp only [if_pos rfl]
      rw [hdisp i e hdr]
      exact ⟨_, rfl⟩

theorem pingGo_attempts_mono (env : PingEnv) :
    ∀ (retry iter : Nat) (d isOk : Bool) (a r : Nat),
    a ≤ (pingGo env retry iter d isOk a r).attempts := by
  intro retry
  induction retry with
  | zero => intro iter d isOk a r; simp [pingGo]
  | succ n ih =>
    intro iter d isOk a r
    rw [pingGo]
    cases isOk
    · simp only [Bool.false_eq_true, if_false]
      rcases hps : pingDisposedStep env (iter + 1) d r with e | ⟨d1, r1⟩ <;>
        dsimp only
      · exact Nat.le_refl a
      · rcases hst : env.step (iter + 1) with v | eid | eid <;> dsimp only
        · exact Nat.le_trans (by omega) (ih (iter + 1) d1 v (a + 1) r1)
        · rcases hcr : env.connReconnect (iter + 1) with e | u <;> dsimp only
          · exact Nat.le_succ a
          · exact Nat.le_trans (by omega) (ih (iter + 1) false false (a + 1) (r1 + 1))
        · exact Nat.le_trans (by omega) (ih (iter + 1) d1 false (a + 1) r1)
    · simp

theorem pingGo_attempts_le (env : PingEnv) :
    ∀ (retry iter : Nat) (d isOk : Bool) (a r : Nat),
    (pingGo env retry iter d isOk a r).attempts ≤ a + retry := by
  intro retry
  induction retry with
  | zero => intro iter d isOk a r; simp [pingGo]
  | succ n ih =>
    intro iter d isOk a r
    rw [pingGo]
    cases isOk
    · simp only [Bool.false_eq_true, if_false]
      rcases hps : pingDisposedStep env (iter + 1) d r with e | ⟨d1, r1⟩ <;>
        dsimp only
      · omega
      · rcases hst : env.step (iter + 1) with v | eid | eid <;> dsimp only
        · exact Nat.le_trans (ih (iter + 1) d1 v (a + 1) r1) (by omega)
        · rcases hcr : env.connReconnect (iter + 1) with e | u <;> dsimp only
          · omega
          · exact Nat.le_trans (ih (iter + 1) false false (a + 1) (r1 + 1)) (by omega)
        · exact Nat.le_trans (ih (iter + 1) d1 false (a + 1) r1) (by omega)
    · simp

theorem pingGo_attempts_lower (env : PingEnv)
    (hdisp : ∀ j e, env.dispReconnect j = .error e → isPyMongoError e = true)
    (n iter : Nat) (d : Bool) (a r : Nat) :
    a + 1 ≤ (pingGo env (n + 1) iter d false a r).attempts := by
  rw [pingGo]
  simp only [Bool.false_eq_true, if_false]
  obtain ⟨⟨d1, r1⟩, hps⟩ := pingDisposedStep_ok env (iter + 1) d r hdisp
  rw [hps]
  dsimp only
  rcases hst : env.step (iter + 1) with v | eid | eid <;> dsimp only
  · exact pingGo_attempts_mono env n (iter + 1) d1 v (a + 1) r1
  · rcases hcr : env.connReconnect (iter + 1) with e | u <;> dsimp only
    · exact Nat.le_refl (a + 1)
    · exact pingGo_attempts_mono env n (iter + 1) false false (a + 1) (r1 + 1)
  · exact pingGo_attempts_mono env n (iter + 1) d1 false (a + 1) r1

theorem pingGo_result_ok (env : PingEnv)
    (hconn : ∀ i, env.connReconnect i = .ok ())
    (hdisp : ∀ j e, env.dispReconnect j = .error e → isPyMongoError e = true) :
    ∀ (retry iter : Nat) (d isOk : Bool) (a r : Nat),
    ∃ b, (pingGo env retry iter d isOk a r).result = .ok b := by
  intro retry
  induction retry with
  | zero => intro iter d isOk a r; exact ⟨isOk, rfl⟩
  | succ n ih =>
    intro iter d isOk a r
    rw [pingGo]
    cases isOk
    · simp only [Bool.false_eq_true, if_false]
      obtain ⟨⟨d1, r1⟩, hps⟩ := pingDisposedStep_ok env (iter + 1) d r hdisp
      rw [hps]
      dsimp only
      rcases hst : env.step (iter + 1) with v | eid | eid <;> dsimp only
      · exact ih (iter + 1) d1 v (a + 1) r1
      · rw [hconn (iter + 1)]
        exact ih (iter + 1) false false (a + 1) (r1 + 1)
      · exact ih (iter + 1) d1 false (a + 1) r1
    · exact ⟨true, rfl⟩

theorem pingGo_result_false (env : PingEnv)
    (hconn : ∀ i, env.connReconnect i = .ok ())
    (hdisp : ∀ j e, env.dispReconnect j = .error e → isPyMongoError e = true)
    (hno : ∀ i, env.step i ≠ .ok true) :
    ∀ (retry iter : Nat) (d : Bool) (a r : Nat),
    (pingGo env retry iter d false a r).result = .ok false := by
  intro retry
  induction retry with
  | zero => intro iter d a r; rfl
  | succ n ih =>
    intro iter d a r
    rw [pingGo]
    simp only [Bool.false_eq_true, if_false]
    obtain ⟨⟨d1, r1⟩, hps⟩ := pingDisposedStep_ok env (iter + 1) d r hdisp
    rw [hps]
    dsimp only
    rcases hst : env.step (iter + 1) with v | eid | eid <;> dsimp only
    · cases v
      · exact ih (iter + 1) d1 (a + 1) r1
      · exact absurd hst (hno (iter + 1))
    · rw [hconn (iter + 1)]
      exact ih (iter + 1) false (a + 1) (r1 + 1)
    · exact ih (iter + 1) d1 (a + 1) r1

/-- C4 (amended): provided every `reconnect()` that `ping` performs succeeds
(and any disposed-branch reconnect failure is a `PyMongoError`, the class its
`except` actually catches), `ping` returns a boolean and does not raise; when
no attempt ever yields a truthy `ok` it returns `false` on exhaustion of the
budget; and when no database name is given the reserved administrative
database `"admin"` is pinged. -/
theorem ping_returns_bool (env : PingEnv) (read_retry : Nat) (disposed : Bool)
    (hconn : ∀ i, env.connReconnect i = .ok ())
    (hdisp : ∀ j e, env.dispReconnect j = .error e → isPyMongoError e = true) :
    (∃ b, (ping env read_retry disposed).result = .ok b) ∧
    ((∀ i, env.step i ≠ .ok true) →
      (ping env read_retry disposed).result = .ok false) ∧
    pingDatabase none = "admin" := by
  refine ⟨?_, ?_, rfl⟩
  · exact pingGo_result_ok env hconn hdisp (max 1 read_retry) 0 disposed false 0 0
  · intro hno
    exact pingGo_result_false env hconn hdisp hno (max 1 read_retry) 0 disposed 0 0

/-- Witness for C4 (amended) at a concrete environment: every attempt fails
with a non-connectivity `PyMongoError`, so `ping` returns `false`. -/
theorem ping_returns_bool_witness :
    (∃ b, (ping envPingOk 2 false).result = .ok b) ∧
    (ping envPingOk 2 false).result = .ok false ∧
    pingDatabase none = "admin" :=
  let h := ping_returns_bool envPingOk 2 false (fun _ => rfl)
    (fun _ e he => by simp [envPingOk] at he)
  ⟨h.1, h.2.1 (fun i => by simp [envPingOk]), h.2.2⟩

/-- C4 counterexample: `ping` RAISES (result is an error, not a boolean) when
the `reconnect()` inside its connectivity handler fails, because that call is
not wrapped in any try/except. -/
theorem ping_raises_counterexample :
    (ping envPingReconnectRaises 2 false).result
      = .error (.connectivity 7) := by
  decide

/-- C10 (amended): the attempt budget of `ping` is `max 1 read_retry`;
whenever every disposed-branch reconnect failure is a `PyMongoError` (in
particular whenever the engine is not disposed), at least one ping command is
issued, at most `max 1 read_retry` are, and with `read_retry = 0` exactly one
is. -/
theorem ping_attempt_budget (env : PingEnv) (read_retry : Nat) (disposed : Bool)
    (hdisp : ∀ j e, env.dispReconnect j = .error e → isPyMongoError e = true) :
    1 ≤ (ping env read_retry disposed).attempts ∧
    (ping env read_retry disposed).attempts ≤ max 1 read_retry ∧
    (ping env 0 disposed).attempts = 1 := by
  have hsplit : max 1 read_retry = (max 1 read_retry - 1) + 1 := by omega
  refine ⟨?_, ?_, ?_⟩
  · show 1 ≤ (pingGo env (max 1 read_retry) 0 disposed false 0 0).attempts
    rw [hsplit]
    exact pingGo_attempts_lower env hdisp (max 1 read_retry - 1) 0 disposed 0 0
  · show (pingGo env (max 1 read_retry) 0 disposed false 0 0).attempts ≤ _
    exact Nat.le_trans (pingGo_attempts_le env (max 1 read_retry) 0 disposed false 0 0)
      (by omega)
  · have h1 : 1 ≤ (pingGo env (max 1 0) 0 disposed false 0 0).attempts := by
      rw [show max 1 0 = 0 + 1 from rfl]
      exact pingGo_attempts_lower env hdisp 0 0 disposed 0 0
    have h2 : (pingGo env (max 1 0) 0 disposed false 0 0).attempts ≤ 0 + max 1 0 :=
      pingGo_attempts_le env (max 1 0) 0 disposed false 0 0
    show (pingGo env (max 1 0) 0 disposed false 0 0).attempts = 1
    omega

/-- Witness for C10 (amended): a non-disposed engine with `read_retry = 0`
and an always-failing server issues exactly one ping command. -/
theorem ping_attempt_budget_witness :
    1 ≤ (ping envPingOk 0 false).attempts ∧
    (ping envPingOk 0 false).attempts ≤ max 1 0 ∧
    (ping envPingOk 0 false).attempts = 1 :=
  ping_attempt_budget envPingOk 0 false (fun _ e he => by simp [envPingOk] at he)

/-- C10 counterexample: on a disposed engine whose reconnect raises `IOError`,
`ping` propagates the error before issuing a single ping command, so zero
attempts are performed — not "at least one". -/
theorem ping_zero_attempts_counterexample :
    (ping envPingDisposedIo 0 true).attempts = 0 ∧
    (ping envPingDisposedIo 0 true).result = .error (.ioError 9) := by
  decide

/-! ## Engine construction, reconnect hook, lock protocol, tower, creation race -/

/-- C8: whatever values (including `None` and negatives) are passed for the
retry counts and delays, `Engine.__init__` stores non-negative values, so the
retry loop's attempt bound `write_retry + 1` is at least 1. -/
theorem engine_init_retry_nonneg (wr rr : Option Int) (wrd rrd : Option ℚ) :
    0 ≤ (engineInitRetrySettings wr wrd rr rrd).write_retry ∧
    0 ≤ (engineInitRetrySettings wr wrd rr rrd).write_retry_delay ∧
    0 ≤ (engineInitRetrySettings wr wrd rr rrd).read_retry ∧
    0 ≤ (engineInitRetrySettings wr wrd rr rrd).read_retry_delay ∧
    1 ≤ (engineInitRetrySettings wr wrd rr rrd).write_retry + 1 := by
  refine ⟨le_max_left 0 _, le_max_left 0 _, le_max_left 0 _, le_max_left 0 _, ?_⟩
  have h : (0 : Int) ≤ max 0 (pyOrZeroInt wr) := le_max_left 0 _
  show (1 : Int) ≤ max 0 (pyOrZeroInt wr) + 1
  omega

/-- C6: after a successful `_reconnect` on an engine whose hook list is the
`Database`'s `invalidate_cache_hook`, the client generation is new, the
engine is no longer disposed, and every cached `Collection` handle is
re-pointed in place to the collection of the same name under the new client;
no handle still references the old client. -/
theorem reconnect_repoints_handles (e : EngineState) (db : DatabaseState)
    (hooks : List (Nat → DatabaseState → DatabaseState))
    (hhooks : hooks = [invalidate_cache_hook]) :
    (engine_reconnect e hooks db).1.clientGen = e.clientGen + 1 ∧
    (engine_reconnect e hooks db).1.disposed = false ∧
    (engine_reconnect e hooks db).2.collections
      = db.collections.map
          (fun kv => (kv.1, ⟨e.clientGen + 1, db.databaseName, kv.2.collName⟩)) ∧
    ∀ p ∈ (engine_reconnect e hooks db).2.collections,
      p.2.clientGen = e.clientGen + 1 ∧ p.2.clientGen ≠ e.clientGen := by
  subst hhooks
  refine ⟨rfl, rfl, rfl, ?_⟩
  intro p hp
  have hx : p ∈ db.collections.map
      (fun kv => (kv.1, (⟨e.clientGen + 1, db.databaseName, kv.2.collName⟩ : PyCollRef))) := hp
  obtain ⟨kv, hkv, rfl⟩ := List.mem_map.mp hx
  exact ⟨rfl, by simp⟩

/-- Witness for C6: reconnecting generation 0 to generation 1 re-points both
cached handles. -/
theorem reconnect_repoints_handles_witness :
    (engine_reconnect ⟨0, false⟩ [invalidate_cache_hook] dbC6).1.clientGen = 0 + 1 ∧
    (engine_reconnect ⟨0, false⟩ [invalidate_cache_hook] dbC6).1.disposed = false ∧
    (engine_reconnect ⟨0, false⟩ [invalidate_cache_hook] dbC6).2.collections
      = dbC6.collections.map
          (fun kv => (kv.1, ⟨0 + 1, dbC6.databaseName, kv.2.collName⟩)) ∧
    ∀ p ∈ (engine_reconnect ⟨0, false⟩ [invalidate_cache_hook] dbC6).2.collections,
      p.2.clientGen = 0 + 1 ∧ p.2.clientGen ≠ 0 :=
  reconnect_repoints_handles ⟨0, false⟩ dbC6 [invalidate_cache_hook] rfl

/-- C2 (evaluated at the failing input): a data operation issued through a
`Collection` handle named `"game"` is executed against the sub-collection
`"game.dialect_entity"`, a differently named collection, not against
`"game"`. -/
theorem handle_op_wrong_collection :
    handleOpTarget ⟨"gaming", "game"⟩ = ⟨"gaming", "game.dialect_entity"⟩ ∧
    (handleOpTarget ⟨"gaming", "game"⟩).coll ≠ "game" := by
  constructor
  · rfl
  · decide

/-- C1 (evaluated at the failing input): bootstrapping a fresh database named
`"gaming"` leaves its lock document at `locked: true` whether the creation
loop succeeds or raises — the release was written to the lock collection of
the database named `"c"` instead. -/
theorem create_all_lock_left_locked :
    (create_all freshStore "gaming" false).2 (lockTarget "gaming") = some true ∧
    (create_all freshStore "gaming" true).2 (lockTarget "gaming") = some true ∧
    (create_all freshStore "gaming" false).2 ⟨"c", LOCK_COLLECTION⟩ = some false := by
  refine ⟨?_, ?_, ?_⟩ <;> rfl

/-- C7 (amended): with a finite timeout an acquisition of the tower never
blocks forever and never raises: `__enter__` always returns, holding each
layered semaphore exactly when that semaphore was available — an unavailable
layer is silently not held, since both `acquire` return values are ignored. -/
theorem tower_enter_finite (t : SemaphoreTowerState) (q : ℚ)
    (h : t.timeout = some q) :
    ∃ hm ht post, towerEnter t = .enters hm ht post ∧
      (hm = true ↔ 0 < t.multiprocess.value) ∧
      (ht = true ↔ 0 < t.thread.value) := by
  by_cases hmv : 0 < t.multiprocess.value
  · by_cases htv : 0 < t.thread.value
    · refine ⟨true, true,
        ⟨⟨t.multiprocess.value - 1⟩, ⟨t.thread.value - 1⟩, t.timeout⟩, ?_,
        by simp [hmv], by simp [htv]⟩
      simp [towerEnter, semAcquire, h, hmv, htv]
    · refine ⟨true, false,
        ⟨⟨t.multiprocess.value - 1⟩, t.thread, t.timeout⟩, ?_,
        by simp [hmv], by simp [htv]⟩
      simp [towerEnter, semAcquire, h, hmv, htv]
  · by_cases htv : 0 < t.thread.value
    · refine ⟨false, true,
        ⟨t.multiprocess, ⟨t.thread.value - 1⟩, t.timeout⟩, ?_,
        by simp [hmv], by simp [htv]⟩
      simp [towerEnter, semAcquire, h, hmv, htv]
    · refine ⟨false, false, t, ?_, by simp [hmv], by simp [htv]⟩
      simp [towerEnter, semAcquire, h, hmv, htv]

/-- Witness for C7 (amended). -/
theorem tower_enter_finite_witness :
    ∃ hm ht post, towerEnter towerUnavailable = .enters hm ht post ∧
      (hm = true ↔ 0 < towerUnavailable.multiprocess.value) ∧
      (ht = true ↔ 0 < towerUnavailable.thread.value) :=
  tower_enter_finite towerUnavailable 5 rfl

/-- C7 counterexample: when the multiprocess semaphore cannot be acquired
within the finite timeout, `__enter__` does not fail with a timeout error —
it returns normally, holding only the thread semaphore. -/
theorem tower_enter_silent_counterexample :
    towerEnter towerUnavailable = .enters false true ⟨⟨0⟩, ⟨0⟩, some 5⟩ ∧
    towerEnter towerUnavailable ≠ .raises := by
  constructor
  · rfl
  · decide

/-- C9: a loser of the benign creation race (name not cached, not listed,
remote create raises `CollectionInvalid`) still gets `is_new = true` from
`_create_mongo_collection`, so `create_collection` runs index creation and
default-document insertion even with `skip_existing = true`. -/
theorem create_collection_race_lost (cache existing : List String) (name : String)
    (hc : name ∉ cache) (he : name ∉ existing) :
    (create_mongo_collection existing .collectionInvalid name).2 = true ∧
    create_collection cache existing .collectionInvalid true name = (true, true) := by
  constructor
  · simp [create_mongo_collection, he]
  · simp [create_collection, create_mongo_collection, hc, he]

/-- Witness for C9 at a fresh database. -/
theorem create_collection_race_lost_witness :
    (create_mongo_collection [] .collectionInvalid "game").2 = true ∧
    create_collection [] [] .collectionInvalid true "game" = (true, true) :=
  create_collection_race_lost [] [] "game" (by simp) (by simp)

end Mongomancy

